import Mathlib

set_option maxRecDepth 4000

/-!
Verification of the Kisan Mitra multi-agent assistant core
(router parsing, agent bridge, agent dispatch), shallowly embedded
from the Python sources `app.py`, `bridge.py`, `all_agents.py`.

Python strings are modelled as `List Char`; Python dicts arriving from
JSON are modelled as ordered association lists; fallible Python code
(code that can raise) returns `Option`.
-/

/-- Python strings are modelled as lists of characters. -/
abbrev Chars := List Char

/-- The left-brace character (written via its code point). -/
def lbrace : Char := Char.ofNat 123

/-- The right-brace character (written via its code point). -/
def rbrace : Char := Char.ofNat 125

/-- Whitespace recognised by Python's `str.strip`: exactly the code
points for which `str.isspace` holds (U+0009–U+000D, U+001C–U+001F,
space, U+0085, U+00A0, U+1680, U+2000–U+200A, U+2028, U+2029, U+202F,
U+205F, U+3000). -/
def isPyWs (c : Char) : Bool :=
  (9 ≤ c.toNat && c.toNat ≤ 13) || (28 ≤ c.toNat && c.toNat ≤ 32)
    || c.toNat = 133 || c.toNat = 160 || c.toNat = 5760
    || (8192 ≤ c.toNat && c.toNat ≤ 8202) || c.toNat = 8232 || c.toNat = 8233
    || c.toNat = 8239 || c.toNat = 8287 || c.toNat = 12288

/-- Whitespace recognised between tokens by the JSON grammar. -/
def isJsonWs (c : Char) : Bool :=
  c = ' ' || c = '\n' || c = '\t' || c = '\r'

/-- Drop leading JSON whitespace. -/
def skipWs : Chars → Chars
  | [] => []
  | c :: cs => if isJsonWs c then skipWs cs else c :: cs

/-- Python `str.strip()`: drop whitespace from both ends. -/
def pyStrip (l : Chars) : Chars :=
  ((l.dropWhile isPyWs).reverse.dropWhile isPyWs).reverse

/-- Fuel-indexed worker for `removeAllAux`; every step consumes at
least one input character, so fuel `length` never runs out. -/
def removeAllFuel (p : Char) (ps : Chars) : Nat → Chars → Chars
  | _, [] => []
  | 0, l => l
  | f + 1, c :: cs =>
    if (p :: ps).isPrefixOf (c :: cs) then removeAllFuel p ps f (List.drop ps.length cs)
    else c :: removeAllFuel p ps f cs

/-- Remove every non-overlapping occurrence of the pattern `p :: ps`,
left to right — the behaviour of Python `str.replace(pat, "")` for a
nonempty pattern. -/
def removeAllAux (p : Char) (ps : Chars) (l : Chars) : Chars :=
  removeAllFuel p ps l.length l

/-- Python `text.replace(pat, "")` (deletion form of `str.replace`). -/
def pyReplaceDel (pat : Chars) (l : Chars) : Chars :=
  match pat with
  | [] => l
  | p :: ps => removeAllAux p ps l

/-- `containsSub pat l` decides whether `pat` occurs as a contiguous
substring of `l` (Python's `pat in l`). -/
def containsSub (pat : Chars) : Chars → Bool
  | [] => pat.isEmpty
  | c :: cs => pat.isPrefixOf (c :: cs) || containsSub pat cs

/-- JSON values as produced by `json.loads`.  Integer literals (no
fraction or exponent) carry their `Int` value, as Python ints do;
float literals and the `NaN`/`Infinity`/`-Infinity` constants carry
their lexeme — no claim in this development interprets a float's
numeric value, only the parse accept/reject boundary matters. -/
inductive JVal : Type where
  | null : JVal
  | bool (b : Bool) : JVal
  | num (n : Int) : JVal
  | fnum (lexeme : Chars) : JVal
  | str (s : Chars) : JVal
  | arr (elems : List JVal) : JVal
  | obj (fields : List (Chars × JVal)) : JVal

/-- First-match lookup in an ordered association list (Python
`dict.get(k)` for dicts built with distinct keys). -/
def alookup (fields : List (Chars × JVal)) (k : Chars) : Option JVal :=
  match fields with
  | [] => none
  | (k', v) :: rest => if k' = k then some v else alookup rest k

/-- The lowercase hexadecimal digit for `n < 16`. -/
def hexDigitChar (n : Nat) : Char :=
  Char.ofNat (if n < 10 then 48 + n else 87 + n)

/-- The value of one hexadecimal digit (either case), as
`int(c, 16)` reads it. -/
def hexDigitVal (c : Char) : Option Nat :=
  if 48 ≤ c.toNat && c.toNat ≤ 57 then some (c.toNat - 48)
  else if 97 ≤ c.toNat && c.toNat ≤ 102 then some (c.toNat - 87)
  else if 65 ≤ c.toNat && c.toNat ≤ 70 then some (c.toNat - 55)
  else none

/-- Escape one character the way the canonical JSON string renderer
does: double quote and backslash get two-character escapes, as do the
control characters with short escapes; any other control character
(below U+0020) becomes a `\u00XX` escape so the rendered text is valid
strict-mode JSON; everything else is emitted verbatim. -/
def escapeChar (c : Char) : Chars :=
  if c = '"' then ['\\', '"']
  else if c = '\\' then ['\\', '\\']
  else if c = '\n' then ['\\', 'n']
  else if c = '\t' then ['\\', 't']
  else if c = '\r' then ['\\', 'r']
  else if c = Char.ofNat 8 then ['\\', 'b']
  else if c = Char.ofNat 12 then ['\\', 'f']
  else if c.toNat < 32 then
    ['\\', 'u', '0', '0', hexDigitChar (c.toNat / 16), hexDigitChar (c.toNat % 16)]
  else [c]

/-- Escape a whole string for inclusion in a JSON text. -/
def escapeStr (s : Chars) : Chars := s.flatMap escapeChar

/-- Decode a JSON short escape character (every escape `json.loads`
accepts except `\uXXXX`, which is handled separately). -/
def unescapeChar (e : Char) : Option Char :=
  if e = '"' then some '"'
  else if e = '\\' then some '\\'
  else if e = '/' then some '/'
  else if e = 'n' then some '\n'
  else if e = 't' then some '\t'
  else if e = 'r' then some '\r'
  else if e = 'b' then some (Char.ofNat 8)
  else if e = 'f' then some (Char.ofNat 12)
  else none

mutual

/-- Parse the body of a JSON string literal (the input starts just
after the opening quote); returns the decoded content and the rest of
the input after the closing quote, following `json.loads` in strict
mode: raw control characters below U+0020 are rejected, `\uXXXX`
escapes (including surrogate pairs) are decoded.  The one modelling
limit: a lone surrogate escape, which Python keeps as a lone surrogate
code point that `Char` cannot carry, decodes to U+FFFD — the
accept/reject boundary is unaffected.  Fuel-indexed; each of the four
mutual workers consumes fuel once per visited character group, so fuel
`4 * length + 4` never runs out. -/
def parseStringBody : Nat → Chars → Option (Chars × Chars)
  | 0, _ => none
  | fuel + 1, l =>
    match l with
    | [] => none
    | c :: cs =>
      if c = '"' then some ([], cs)
      else if c = '\\' then parseEscapeSeq fuel cs
      else if c.toNat < 32 then none
      else
        match parseStringBody fuel cs with
        | some (s, r) => some (c :: s, r)
        | none => none

/-- Parse one escape sequence (the input starts just after the
backslash). -/
def parseEscapeSeq : Nat → Chars → Option (Chars × Chars)
  | 0, _ => none
  | fuel + 1, l =>
    match l with
    | [] => none
    | e :: cs =>
      if e = 'u' then parseUEscape fuel cs
      else
        match unescapeChar e, parseStringBody fuel cs with
        | some d, some (s, r) => some (d :: s, r)
        | _, _ => none

/-- Parse the four hex digits of a `\uXXXX` escape and, for a high
surrogate, attempt the paired low surrogate as `json.loads` does. -/
def parseUEscape : Nat → Chars → Option (Chars × Chars)
  | 0, _ => none
  | fuel + 1, l =>
    match l with
    | x1 :: x2 :: x3 :: x4 :: cs =>
      match hexDigitVal x1, hexDigitVal x2, hexDigitVal x3, hexDigitVal x4 with
      | some a, some b, some c, some d =>
        if 55296 ≤ ((a * 16 + b) * 16 + c) * 16 + d
            ∧ ((a * 16 + b) * 16 + c) * 16 + d ≤ 56319 then
          parseAfterHighSurrogate fuel (((a * 16 + b) * 16 + c) * 16 + d) cs
        else
          match parseStringBody fuel cs with
          | some (s, r) =>
            some ((if 56320 ≤ ((a * 16 + b) * 16 + c) * 16 + d
                      ∧ ((a * 16 + b) * 16 + c) * 16 + d ≤ 57343 then Char.ofNat 65533
                   else Char.ofNat (((a * 16 + b) * 16 + c) * 16 + d)) :: s, r)
          | none => none
      | _, _, _, _ => none
    | _ => none

/-- After a high-surrogate `\uXXXX` escape: a directly following
`\uYYYY` low surrogate combines into one code point; a following
`\uYYYY` that is not a low surrogate leaves the lone high surrogate
and is re-read as its own escape; malformed following hex fails, as in
`json.loads`; anything else leaves the lone high surrogate. -/
def parseAfterHighSurrogate : Nat → Nat → Chars → Option (Chars × Chars)
  | 0, _, _ => none
  | fuel + 1, code, l =>
    match l with
    | '\\' :: 'u' :: y1 :: y2 :: y3 :: y4 :: cs3 =>
      match hexDigitVal y1, hexDigitVal y2, hexDigitVal y3, hexDigitVal y4 with
      | some a, some b, some c, some d =>
        if 56320 ≤ ((a * 16 + b) * 16 + c) * 16 + d
            ∧ ((a * 16 + b) * 16 + c) * 16 + d ≤ 57343 then
          match parseStringBody fuel cs3 with
          | some (s, r) =>
            some (Char.ofNat (65536 + (code - 55296) * 1024
                    + (((a * 16 + b) * 16 + c) * 16 + d - 56320)) :: s, r)
          | none => none
        else
          match parseStringBody fuel l with
          | some (s, r) => some (Char.ofNat 65533 :: s, r)
          | none => none
      | _, _, _, _ => none
    | _ =>
      match parseStringBody fuel l with
      | some (s, r) => some (Char.ofNat 65533 :: s, r)
      | none => none

end

/-- Accumulate decimal digits into a natural number. -/
def digitsToNat : Chars → Nat → Nat
  | [], acc => acc
  | c :: cs, acc => digitsToNat cs (acc * 10 + (c.toNat - '0'.toNat))

/-- The integer part of a JSON number: `0` or a nonzero digit followed
by digits, with maximal munch — a leading `0` never absorbs further
digits, exactly as the scanner's regular expression
`(-?(?:0|[1-9]\d*))` reads it. -/
def parseIntPart (l : Chars) : Option (Chars × Chars) :=
  match l with
  | [] => none
  | c :: rest =>
    if c = '0' then some (['0'], rest)
    else if c.isDigit then some (c :: rest.takeWhile Char.isDigit, rest.dropWhile Char.isDigit)
    else none

/-- The optional fraction part `(\.\d+)?` of a JSON number; a dot not
followed by a digit is left unconsumed. -/
def parseFracPart (l : Chars) : Chars × Chars :=
  match l with
  | '.' :: rest =>
    let ds := rest.takeWhile Char.isDigit
    if ds.isEmpty then ([], l) else ('.' :: ds, rest.dropWhile Char.isDigit)
  | _ => ([], l)

/-- The optional exponent part `([eE][-+]?\d+)?` of a JSON number; a
malformed exponent is left unconsumed. -/
def parseExpPart (l : Chars) : Chars × Chars :=
  match l with
  | e :: s :: rest =>
    if e = 'e' || e = 'E' then
      if s = '+' || s = '-' then
        let ds := rest.takeWhile Char.isDigit
        if ds.isEmpty then ([], e :: s :: rest)
        else (e :: s :: ds, rest.dropWhile Char.isDigit)
      else
        let ds := (s :: rest).takeWhile Char.isDigit
        if ds.isEmpty then ([], e :: s :: rest)
        else (e :: ds, (s :: rest).dropWhile Char.isDigit)
    else ([], e :: s :: rest)
  | _ => ([], l)

/-- Assemble a parsed number: an integer lexeme (no fraction, no
exponent) becomes a Python int; otherwise a float lexeme. -/
def parseNumTail (neg : Bool) (intDs : Chars) (l : Chars) : Option (JVal × Chars) :=
  match parseFracPart l with
  | (fr, l2) =>
    match parseExpPart l2 with
    | (ex, l3) =>
      if fr.isEmpty && ex.isEmpty then
        some (JVal.num (if neg then -(digitsToNat intDs 0 : Int) else (digitsToNat intDs 0 : Int)), l)
      else
        some (JVal.fnum ((if neg then ['-'] else []) ++ intDs ++ fr ++ ex), l3)

/-- Parse a JSON number, or one of the constants `NaN`, `Infinity`,
`-Infinity` that `json.loads` accepts at value position. -/
def parseNumber (l : Chars) : Option (JVal × Chars) :=
  match l with
  | 'N' :: 'a' :: 'N' :: rest => some (JVal.fnum ("NaN".data), rest)
  | 'I' :: 'n' :: 'f' :: 'i' :: 'n' :: 'i' :: 't' :: 'y' :: rest =>
    some (JVal.fnum ("Infinity".data), rest)
  | '-' :: 'I' :: 'n' :: 'f' :: 'i' :: 'n' :: 'i' :: 't' :: 'y' :: rest =>
    some (JVal.fnum ("-Infinity".data), rest)
  | '-' :: rest =>
    match parseIntPart rest with
    | some (ds, r1) => parseNumTail true ds r1
    | none => none
  | _ =>
    match parseIntPart l with
    | some (ds, r1) => parseNumTail false ds r1
    | none => none

mutual

/-- Parse one JSON value (fuel-indexed; the top entry point passes more
fuel than any input can consume). -/
def parseVal : Nat → Chars → Option (JVal × Chars)
  | 0, _ => none
  | f + 1, l =>
    match skipWs l with
    | [] => none
    | c :: rest =>
      if c = lbrace then
        match skipWs rest with
        | d :: r2 =>
          if d = rbrace then some (JVal.obj [], r2)
          else
            match parseMembers f (d :: r2) with
            | some (ms, r3) => some (JVal.obj ms, r3)
            | none => none
        | [] => none
      else if c = '[' then
        match skipWs rest with
        | ']' :: r2 => some (JVal.arr [], r2)
        | r2 =>
          match parseElems f r2 with
          | some (vs, r3) => some (JVal.arr vs, r3)
          | none => none
      else if c = '"' then
        match parseStringBody (4 * rest.length + 4) rest with
        | some (s, r) => some (JVal.str s, r)
        | none => none
      else if c = 't' then
        match rest with
        | 'r' :: 'u' :: 'e' :: r2 => some (JVal.bool true, r2)
        | _ => none
      else if c = 'f' then
        match rest with
        | 'a' :: 'l' :: 's' :: 'e' :: r2 => some (JVal.bool false, r2)
        | _ => none
      else if c = 'n' then
        match rest with
        | 'u' :: 'l' :: 'l' :: r2 => some (JVal.null, r2)
        | _ => none
      else parseNumber (c :: rest)

/-- Parse the members of a nonempty JSON object, up to and including
the closing brace. -/
def parseMembers : Nat → Chars → Option (List (Chars × JVal) × Chars)
  | 0, _ => none
  | f + 1, l =>
    match l with
    | [] => none
    | c :: rest =>
      if c = '"' then
        match parseStringBody (4 * rest.length + 4) rest with
        | some (k, r1) =>
          match skipWs r1 with
          | [] => none
          | d0 :: r2 =>
            if d0 = ':' then
              match parseVal f r2 with
              | some (v, r3) =>
                match skipWs r3 with
                | d :: r4 =>
                  if d = ',' then
                    match parseMembers f (skipWs r4) with
                    | some (ms, r5) => some ((k, v) :: ms, r5)
                    | none => none
                  else if d = rbrace then some ([(k, v)], r4)
                  else none
                | [] => none
              | none => none
            else none
        | none => none
      else none

/-- Parse the elements of a nonempty JSON array, up to and including
the closing bracket. -/
def parseElems : Nat → Chars → Option (List JVal × Chars)
  | 0, _ => none
  | f + 1, l =>
    match parseVal f l with
    | some (v, r1) =>
      match skipWs r1 with
      | ',' :: r2 =>
        match parseElems f r2 with
        | some (vs, r3) => some (v :: vs, r3)
        | none => none
      | ']' :: r2 => some ([v], r2)
      | _ => none
    | none => none

end

/-- `json.loads`: parse a complete JSON text; `none` models a raised
`json.JSONDecodeError`.  Every recursive call of the value parser
consumes at least one input character first, so fuel `length + 1`
never runs out. -/
def json_loads (s : Chars) : Option JVal :=
  match parseVal (s.length + 1) s with
  | some (v, r) => if skipWs r = [] then some v else none
  | none => none

/-- The backtick character (written via its code point). -/
def btick : Char := Char.ofNat 96

/-- The code-fence marker (three backticks) removed by the router. -/
def fenceMarker : Chars := [btick, btick, btick]

/-- The long code-fence marker (three backticks followed by `json`)
removed first by the router. -/
def fenceJsonMarker : Chars := fenceMarker ++ [ 'j', 's', 'o', 'n' ]

/-- The router's reply-cleaning step, from `app.py` line 82 (and the
identical `voice_assistant.py` line 136):
`response_text.strip().replace("```json", "").replace("```", "")`. -/
def routerClean (t : Chars) : Chars :=
  pyReplaceDel fenceMarker (pyReplaceDel fenceJsonMarker (pyStrip t))

/-- The router's whole parsing step: clean the reply text, then parse
it as JSON. -/
def routerParseStep (t : Chars) : Option JVal :=
  json_loads (routerClean t)

/-- The fallback decision `{"agent": "Unclear", "parameters": {}}`
built in the `except` arm of `route_query_to_agent`. -/
def unclearDecision : JVal :=
  JVal.obj [(("agent".data), JVal.str ("Unclear".data)),
            (("parameters".data), JVal.obj [])]

/-- `route_query_to_agent` from the point the completion client's reply
is in hand: `none` models a non-string reply (whose `.strip()` raises
`AttributeError`); a reply whose cleaned text fails to parse as JSON
raises `json.JSONDecodeError`; both exceptions are caught and replaced
by the Unclear decision.  A successfully parsed value is returned
unchanged. -/
def route_query_to_agent (response_text : Option Chars) : JVal :=
  match response_text with
  | none => unclearDecision
  | some t =>
    match routerParseStep t with
    | some v => v
    | none => unclearDecision

/-- Decimal rendering of a Python integer, as an f-string interpolates it. -/
def intRepr (n : Int) : Chars := (toString n).data

/-- Python truthiness of an optional string: `None` and the empty
string are falsy (`if not x`). -/
def pyFalsy (o : Option Chars) : Bool :=
  match o with
  | none => true
  | some s => s.isEmpty

/-- First-match lookup in a string-valued association list (Python
`dict.get(k)` on a dict of strings). -/
def slookup (d : List (Chars × Chars)) (k : Chars) : Option Chars :=
  match d with
  | [] => none
  | (k', v) :: rest => if k' = k then some v else slookup rest k

/-- Python `str.title()` (ASCII letters): a letter is uppercased after
a non-letter and lowercased after a letter. -/
def pyTitleAux : Bool → Chars → Chars
  | _, [] => []
  | prev, c :: cs =>
    if c.isAlpha then (if prev then c.toLower else c.toUpper) :: pyTitleAux true cs
    else c :: pyTitleAux false cs

/-- Python `str.title()`. -/
def pyTitle (s : Chars) : Chars := pyTitleAux false s

/-- Join a list of strings with a separator. -/
def joinSep (sep : Chars) : List Chars → Chars
  | [] => []
  | [x] => x
  | x :: y :: xs => x ++ sep ++ joinSep sep (y :: xs)

/-!  ## The agent bridge (`bridge.py`)  -/

/-- A registered agent instance, as the bridge sees it: it may or may
not expose a `handle_request` method (the `hasattr` probe). -/
structure PyAgent where
  handle_request : Option (Chars → List (Chars × Chars) → Chars)

/-- The bridge's registry `self._agents`, a name-keyed dictionary. -/
structure AgentBridge where
  agents : Chars → Option PyAgent

/-- `AgentBridge.register_agent`: insert/overwrite the entry for
`name` (last registration wins). -/
def AgentBridge.register_agent (b : AgentBridge) (name : Chars) (ag : PyAgent) : AgentBridge :=
  ⟨fun n => if n = name then some ag else b.agents n⟩

/-- `AgentBridge.request` (`bridge.py` lines 23–36): look up the
target; a missing target or a target without a `handle_request`
method yields a literal error string, never an exception. -/
def AgentBridge.request (b : AgentBridge) (target_agent_name task : Chars) (data : List (Chars × Chars)) : Chars :=
  match b.agents target_agent_name with
  | some target_agent =>
    match target_agent.handle_request with
    | some h => h task data
    | none => ("Error: Agent '".data) ++ target_agent_name ++ ("' cannot handle requests.".data)
  | none => ("Error: Agent '".data) ++ target_agent_name ++ ("' not found.".data)

/-!  ## External client results and call tracing  -/

/-- One outbound call made by an agent; agent operations return their
result together with the list of calls they made, in order. -/
inductive CallEvent : Type where
  | weatherApi (city : Chars) : CallEvent
  | marketApi (commodity market : Chars) : CallEvent
  | gemini (prompt : Chars) : CallEvent
  | bridgeReq (target task : Chars) : CallEvent

/-- Result of `get_weather_from_api(city)` as the agents read it:
either a dict with an `"error"` key, or a dict with `name`, a
`weather` list of `description`s, and `main.temp` / `main.humidity`. -/
inductive WeatherResp : Type where
  | error (msg : Chars) : WeatherResp
  | ok (name : Chars) (descriptions : List Chars) (temp humidity : Int) : WeatherResp

/-- Result of `get_market_data_from_gov_api(commodity, market)`:
either a dict with an `"error"` key, or a dict whose `records` are a
list of flat string-valued record objects. -/
inductive MarketResp : Type where
  | error (msg : Chars) : MarketResp
  | ok (records : List (List (Chars × Chars))) : MarketResp

/-- `json.dumps` of one flat string-valued record object at
`indent=2`, nested one level deep (as in the market prompt). -/
def dumpsRecordObj (fs : List (Chars × Chars)) : Chars :=
  match fs with
  | [] => ("\x7b\x7d".data)
  | _ =>
    ("\x7b\n    ".data)
      ++ joinSep (",\n    ".data)
           (fs.map (fun p => ['"'] ++ escapeStr p.1 ++ ("\": \"".data) ++ escapeStr p.2 ++ ['"']))
      ++ ("\n  \x7d".data)

/-- `json.dumps(market_data['records'], indent=2)`. -/
def dumpsRecords (rs : List (List (Chars × Chars))) : Chars :=
  match rs with
  | [] => ("[]".data)
  | _ => ("[\n  ".data) ++ joinSep (",\n  ".data) (rs.map dumpsRecordObj) ++ ("\n]".data)

/-- Compact `json.dumps(report_data)` for the weather report dict
(keys in insertion order). -/
def dumpsReportData (city cond : Chars) (temp humidity : Int) : Chars :=
  ("\x7b\"city\": \"".data) ++ escapeStr city
    ++ ("\", \"condition\": \"".data) ++ escapeStr cond
    ++ ("\", \"temperature_celsius\": ".data) ++ intRepr temp
    ++ (", \"humidity_percent\": ".data) ++ intRepr humidity
    ++ ("\x7d".data)

/-!  ## Agent operations (`all_agents.py`)

Each operation takes its external collaborators (completion client,
data client, bridge) as function arguments and returns its result
together with the ordered list of outbound calls it made.  -/

/-- The market agent's prompt template (`all_agents.py` lines 51–61). -/
def marketPrompt (commodity market weather_report : Chars) (records : List (List (Chars × Chars))) (lang : Chars) : Chars :=
  ("\n        You are a market analyst for Indian farmers. Provide simple, actionable advice.\n        Analyze the following real-time market data for '".data)
    ++ commodity ++ ("' in '".data) ++ market
    ++ ("'.\n        Also consider this weather forecast: ".data) ++ weather_report
    ++ ("\n\n        Market Data:\n        ".data) ++ dumpsRecords records
    ++ ("\n\n        Provide a summary including min, max, and modal price, and a clear recommendation on whether to sell today.\n        IMPORTANT: Provide the entire response in the following language: ".data)
    ++ lang ++ (".\n        ".data)

/-- `MarketAgent.get_market_price` (`all_agents.py` lines 35–63). -/
def MarketAgent.get_market_price (fetch : Chars → Chars → MarketResp)
    (breq : Chars → Chars → List (Chars × Chars) → Chars) (gemini : Chars → Chars)
    (commodity market : Option Chars) (lang : Chars) : Chars × List CallEvent :=
  if pyFalsy commodity || pyFalsy market then
    (("To get market prices, please tell me the crop and the market name (mandi).".data), [])
  else
    let c := commodity.getD []
    let m := market.getD []
    match fetch c m with
    | MarketResp.error e =>
      (("Sorry, I could not fetch market data. Reason: ".data) ++ e, [CallEvent.marketApi c m])
    | MarketResp.ok records =>
      let weather_report := breq ("WeatherAgent".data) ("get_simple_forecast".data) [(("city".data), m)]
      let prompt := marketPrompt c m weather_report records lang
      (gemini prompt,
       [CallEvent.marketApi c m,
        CallEvent.bridgeReq ("WeatherAgent".data) ("get_simple_forecast".data),
        CallEvent.gemini prompt])

/-- The scheme agent's prompt template (`all_agents.py` lines 74–79). -/
def schemePrompt (query lang : Chars) : Chars :=
  ("\n        You are an expert on Indian government agricultural schemes.\n        A farmer has asked for help with: '".data)
    ++ query
    ++ ("'.\n        Identify the most relevant schemes. For each, explain the benefit, eligibility, and how to apply.\n        IMPORTANT: Provide the entire response in the following language: ".data)
    ++ lang ++ (".\n        ".data)

/-- `SchemeAgent.find_schemes` (`all_agents.py` lines 69–80). -/
def SchemeAgent.find_schemes (gemini : Chars → Chars) (query : Option Chars) (lang : Chars) : Chars × List CallEvent :=
  if pyFalsy query then
    (("Please tell me what kind of scheme or subsidy you are looking for.".data), [])
  else
    let prompt := schemePrompt (query.getD []) lang
    (gemini prompt, [CallEvent.gemini prompt])

/-- The weather agent's prompt template (`all_agents.py` lines 108–122). -/
def weatherPrompt (city cond : Chars) (temp humidity : Int) (lang : Chars) : Chars :=
  ("\n        You are a weather reporter for an Indian farmer.\n        Take the following weather data and present it as a simple, clear report.\n\n        Weather Data:\n        ".data)
    ++ dumpsReportData city cond temp humidity
    ++ ("\n\n        Example format:\n        Weather for [City]:\n        - Condition: [Condition]\n        - Temperature: [Temperature]°C\n        - Humidity: [Humidity]%\n\n        IMPORTANT: Provide the entire response in the following language: ".data)
    ++ lang ++ (".\n        ".data)

/-- `WeatherAgent.get_weather` (`all_agents.py` lines 87–123).  The
result is `none` when the code would raise (an empty `weather` list
makes `weather_data['weather'][0]` raise `IndexError`). -/
def WeatherAgent.get_weather (fetch : Chars → WeatherResp) (gemini : Chars → Chars)
    (city : Option Chars) (lang : Chars) : Option Chars × List CallEvent :=
  if pyFalsy city then
    (some ("Please tell me the city or town for the weather forecast.".data), [])
  else
    let c := city.getD []
    match fetch c with
    | WeatherResp.error e =>
      (some (("Could not get weather for '".data) ++ c ++ ("'. Reason: ".data) ++ e), [CallEvent.weatherApi c])
    | WeatherResp.ok nm descs temp humidity =>
      match descs with
      | [] => (none, [CallEvent.weatherApi c])
      | desc :: _ =>
        let prompt := weatherPrompt nm (pyTitle desc) temp humidity lang
        (some (gemini prompt), [CallEvent.weatherApi c, CallEvent.gemini prompt])

/-- The short deterministic forecast sentence built by the weather
agent's bridge handler (`all_agents.py` line 135). -/
def forecastLine (city desc : Chars) (temp : Int) : Chars :=
  ("Forecast for ".data) ++ city ++ (": ".data) ++ pyTitle desc
    ++ (" with temperatures around ".data) ++ intRepr temp ++ ("°C.".data)

/-- `WeatherAgent.handle_request` (`all_agents.py` lines 125–136).
The result is `none` when the code would raise (empty `weather` list). -/
def WeatherAgent.handle_request (fetch : Chars → WeatherResp)
    (task : Chars) (data : List (Chars × Chars)) : Option Chars × List CallEvent :=
  if task = ("get_simple_forecast".data) then
    let city := slookup data ("city".data)
    if pyFalsy city then (some ("No city provided.".data), [])
    else
      let c := city.getD []
      match fetch c with
      | WeatherResp.error _ => (some ("Weather data unavailable.".data), [CallEvent.weatherApi c])
      | WeatherResp.ok _ descs temp _ =>
        match descs with
        | [] => (none, [CallEvent.weatherApi c])
        | desc :: _ => (some (forecastLine c desc temp), [CallEvent.weatherApi c])
  else (some ("Unknown task.".data), [])

/-- The organic agent's prompt template (`all_agents.py` lines 147–151). -/
def organicPrompt (topic lang : Chars) : Chars :=
  ("\n        You are an expert in organic farming in India. A farmer wants to know about '".data)
    ++ topic
    ++ ("'.\n        Provide a practical, step-by-step guide.\n        IMPORTANT: Provide the entire response in the following language: ".data)
    ++ lang ++ (".\n        ".data)

/-- `OrganicAgent.get_tips` (`all_agents.py` lines 142–152). -/
def OrganicAgent.get_tips (gemini : Chars → Chars) (topic : Option Chars) (lang : Chars) : Chars × List CallEvent :=
  if pyFalsy topic then
    (("Please tell me what organic farming topic you are interested in.".data), [])
  else
    let prompt := organicPrompt (topic.getD []) lang
    (gemini prompt, [CallEvent.gemini prompt])

/-- The soil agent's prompt template (`all_agents.py` lines 163–167). -/
def soilPrompt (query lang : Chars) : Chars :=
  ("\n        You are an expert soil scientist for Indian agriculture. A farmer has described their soil: \"".data)
    ++ query
    ++ ("\".\n        Provide an analysis: Likely soil type, characteristics, suitable crops, and improvement steps.\n        IMPORTANT: Provide the entire response in a clear, easy-to-understand format in the following language: ".data)
    ++ lang ++ (".\n        ".data)

/-- `SoilAgent.analyze_soil` (`all_agents.py` lines 158–168). -/
def SoilAgent.analyze_soil (gemini : Chars → Chars) (query : Option Chars) (lang : Chars) : Chars × List CallEvent :=
  if pyFalsy query then
    (("Please describe your soil. For example, 'My soil is red and does not hold water well'.".data), [])
  else
    let prompt := soilPrompt (query.getD []) lang
    (gemini prompt, [CallEvent.gemini prompt])

/-!  ## The web front end's text dispatch (`app.py`, `ask`)  -/

/-- One agent-method invocation made by the `ask` dispatch chain
(arguments as extracted from the router's `parameters` mapping by
`params.get`). -/
inductive MethodCall : Type where
  | market (commodity market : Option JVal) (lang : Chars) : MethodCall
  | scheme (query : Option JVal) (lang : Chars) : MethodCall
  | weather (city : Option JVal) (lang : Chars) : MethodCall
  | organic (topic : Option JVal) (lang : Chars) : MethodCall
  | soil (query : Option JVal) (lang : Chars) : MethodCall

/-- The keys of the `agents` dictionary built in `app.py` lines 32–39. -/
def agentsKeys : List Chars :=
  [("CropAgent".data), ("MarketAgent".data), ("SchemeAgent".data),
   ("WeatherAgent".data), ("OrganicAgent".data), ("SoilAgent".data)]

/-- The generic fallback response preset in `ask` (`app.py` line 118). -/
def fallbackResponse : Chars :=
  ("I'm sorry, I'm not sure how to help with that. Could you please rephrase your question?".data)

/-- The broad-catch response of the `try` block (`app.py` line 137). -/
def genericErrorResponse : Chars := ("Sorry, something went wrong.".data)

/-- The inner `if/elif` dispatch chain of `ask` (`app.py` lines
125–137), entered only for a registered agent name.  The agent method
results are abstracted by `impl`; `params.get(...)` on a non-dict
`parameters` value raises inside the `try` and is caught broadly. -/
def askDispatch (impl : MethodCall → Chars) (name : Chars) (params : JVal) (lang : Chars) : Chars × List MethodCall :=
  if name = ("MarketAgent".data) then
    match params with
    | JVal.obj fs =>
      let c := alookup fs ("commodity".data)
      let m := alookup fs ("market".data)
      (impl (MethodCall.market c m lang), [MethodCall.market c m lang])
    | _ => (genericErrorResponse, [])
  else if name = ("SchemeAgent".data) then
    match params with
    | JVal.obj fs =>
      let q := alookup fs ("query".data)
      (impl (MethodCall.scheme q lang), [MethodCall.scheme q lang])
    | _ => (genericErrorResponse, [])
  else if name = ("WeatherAgent".data) then
    match params with
    | JVal.obj fs =>
      let ct := alookup fs ("city".data)
      (impl (MethodCall.weather ct lang), [MethodCall.weather ct lang])
    | _ => (genericErrorResponse, [])
  else if name = ("OrganicAgent".data) then
    match params with
    | JVal.obj fs =>
      let t := alookup fs ("topic".data)
      (impl (MethodCall.organic t lang), [MethodCall.organic t lang])
    | _ => (genericErrorResponse, [])
  else if name = ("SoilAgent".data) then
    match params with
    | JVal.obj fs =>
      let q := alookup fs ("query".data)
      (impl (MethodCall.soil q lang), [MethodCall.soil q lang])
    | _ => (genericErrorResponse, [])
  else (fallbackResponse, [])

/-- The text path of `ask` (`app.py` lines 109–139) from the point the
router's decision is in hand.  Returns the response value together
with the agent methods invoked; `none` models an exception that
escapes `ask` (e.g. `.get` on a non-dict router output, or the
unhashable-key `TypeError` of `agent_name in agents`). -/
def askText (impl : MethodCall → Chars) (routing_info : JVal) (language : Chars) : Option (JVal × List MethodCall) :=
  match routing_info with
  | JVal.obj fs =>
    let agent_name := alookup fs ("agent".data)
    let params := (alookup fs ("parameters".data)).getD (JVal.obj [])
    match agent_name with
    | some (JVal.str n) =>
      if n = ("General".data) then
        match params with
        | JVal.obj pfs =>
          some ((alookup pfs ("response".data)).getD (JVal.str ("You're welcome!".data)), [])
        | _ => none
      else if n ∈ agentsKeys then
        let rc := askDispatch impl n params language
        some (JVal.str rc.1, rc.2)
      else some (JVal.str fallbackResponse, [])
    | some (JVal.arr _) => none
    | some (JVal.obj _) => none
    | _ => some (JVal.str fallbackResponse, [])
  | _ => none

/-!  ## Canonical RouteDecision texts (for the router parsing claim)  -/

/-- Canonical JSON text of one string-valued object member. -/
def renderMember (k v : Chars) : Chars :=
  ['"'] ++ escapeStr k ++ ("\":\"".data) ++ escapeStr v ++ ['"']

/-- Canonical JSON text of the members of a string-valued object. -/
def renderMembersText : List (Chars × Chars) → Chars
  | [] => []
  | [(k, v)] => renderMember k v
  | (k, v) :: p :: ps => renderMember k v ++ [','] ++ renderMembersText (p :: ps)

/-- Canonical JSON text of a string-valued object. -/
def renderStrObj (ps : List (Chars × Chars)) : Chars :=
  [lbrace] ++ renderMembersText ps ++ [rbrace]

/-- Canonical well-formed RouteDecision JSON text for agent label `a`
and parameter mapping `ps`. -/
def renderRD (a : Chars) (ps : List (Chars × Chars)) : Chars :=
  [lbrace] ++ renderMember ("agent".data) a ++ [',']
    ++ ['"'] ++ escapeStr ("parameters".data) ++ ("\":".data)
    ++ renderStrObj ps ++ [rbrace]

/-- The structure a RouteDecision text denotes: the mapping with the
two keys `agent` and `parameters`. -/
def rdJVal (a : Chars) (ps : List (Chars × Chars)) : JVal :=
  JVal.obj [(("agent".data), JVal.str a),
            (("parameters".data), JVal.obj (ps.map (fun p => (p.1, JVal.str p.2))))]

/-- The fixed set of agent labels enumerated in the router prompt
(`app.py` lines 58–65). -/
def routerLabels : List Chars :=
  [("WeatherAgent".data), ("MarketAgent".data), ("SchemeAgent".data),
   ("SoilAgent".data), ("OrganicAgent".data), ("CropAgent".data), ("General".data)]

/-!  ## Helper lemmas  -/

theorem isPrefixOf_append_self (xs ys : Chars) : xs.isPrefixOf (xs ++ ys) = true := by
  induction xs with
  | nil => simp [List.isPrefixOf]
  | cons a as ih => simp [List.isPrefixOf, ih]

theorem containsSub_sandwich (pat pre post : Chars) :
    containsSub pat (pre ++ (pat ++ post)) = true := by
  induction pre with
  | nil =>
    cases pat with
    | nil => cases post <;> simp [containsSub, List.isPrefixOf]
    | cons p ps => simp [containsSub, isPrefixOf_append_self]
  | cons c cs ih => simp [containsSub, ih]

theorem isPrefixOf_append_mono (p q l : Chars) :
    (p ++ q).isPrefixOf l = true → p.isPrefixOf l = true := by
  induction p generalizing l with
  | nil => intro _; simp [List.isPrefixOf]
  | cons a as ih =>
    intro h
    cases l with
    | nil => simp [List.isPrefixOf] at h
    | cons b bs =>
      simp only [List.cons_append, List.isPrefixOf, Bool.and_eq_true, beq_iff_eq] at h ⊢
      exact ⟨h.1, ih bs h.2⟩

theorem containsSub_append_pat_mono (p q l : Chars) :
    containsSub (p ++ q) l = true → containsSub p l = true := by
  induction l with
  | nil => simp [containsSub]; intro h; simp [h]
  | cons c cs ih =>
    simp only [containsSub, Bool.or_eq_true]
    intro h
    cases h with
    | inl h => exact Or.inl (isPrefixOf_append_mono p q (c :: cs) h)
    | inr h => exact Or.inr (ih h)

theorem removeAllFuel_no_occur (p : Char) (ps : Chars) (f : Nat) (l : Chars)
    (h : containsSub (p :: ps) l = false) : removeAllFuel p ps f l = l := by
  induction f generalizing l with
  | zero => cases l <;> simp [removeAllFuel]
  | succ f ih =>
    cases l with
    | nil => simp [removeAllFuel]
    | cons c cs =>
      simp [containsSub] at h
      simp [removeAllFuel, h.1, ih cs h.2]

theorem pyReplaceDel_no_occur (pat l : Chars) (h : containsSub pat l = false) :
    pyReplaceDel pat l = l := by
  cases pat with
  | nil => simp [pyReplaceDel]
  | cons p ps => exact removeAllFuel_no_occur p ps l.length l h

theorem pyStrip_braced (xs : Chars) :
    pyStrip (lbrace :: (xs ++ [rbrace])) = lbrace :: (xs ++ [rbrace]) := by
  have h1 : isPyWs lbrace = false := by decide
  have h2 : isPyWs rbrace = false := by decide
  have e1 : (lbrace :: (xs ++ [rbrace])).dropWhile isPyWs = lbrace :: (xs ++ [rbrace]) := by
    simp [List.dropWhile, h1]
  have e2 : (lbrace :: (xs ++ [rbrace])).reverse = rbrace :: (xs.reverse ++ [lbrace]) := by
    simp
  unfold pyStrip
  rw [e1, e2]
  simp [List.dropWhile, h2]

theorem hexDigitVal_hexDigitChar (d : Nat) (h : d < 16) :
    hexDigitVal (hexDigitChar d) = some d := by
  interval_cases d <;> rfl

theorem parseStringBody_escape (s : Chars) : ∀ (F : Nat) (rest : Chars),
    4 * (escapeStr s).length + 1 ≤ F →
    parseStringBody F (escapeStr s ++ ('"' :: rest)) = some (s, rest) := by
  induction s with
  | nil =>
    intro F rest hF
    obtain ⟨F1, rfl⟩ : ∃ F1, F = F1 + 1 := ⟨F - 1, by omega⟩
    show parseStringBody (F1 + 1) ([] ++ ('"' :: rest)) = some ([], rest)
    rw [List.nil_append]
    simp [parseStringBody]
  | cons c cs ih =>
    intro F rest hF
    have hstep : escapeStr (c :: cs) = escapeChar c ++ escapeStr cs := by
      simp [escapeStr]
    rw [hstep, List.append_assoc]
    rw [hstep] at hF
    simp only [List.length_append] at hF
    by_cases h1 : c = '"'
    · subst h1
      have hc : (escapeChar '"').length = 2 := rfl
      rw [hc] at hF
      obtain ⟨F2, rfl⟩ : ∃ F2, F = F2 + 2 := ⟨F - 2, by omega⟩
      have hrec := ih F2 rest (by omega)
      simp [escapeChar, parseStringBody, parseEscapeSeq, unescapeChar, hrec]
    · by_cases h2 : c = '\\'
      · subst h2
        have hc : (escapeChar '\\').length = 2 := rfl
        rw [hc] at hF
        obtain ⟨F2, rfl⟩ : ∃ F2, F = F2 + 2 := ⟨F - 2, by omega⟩
        have hrec := ih F2 rest (by omega)
        simp [escapeChar, parseStringBody, parseEscapeSeq, unescapeChar, hrec]
      · by_cases h3 : c = '\n'
        · subst h3
          have hc : (escapeChar '\n').length = 2 := rfl
          rw [hc] at hF
          obtain ⟨F2, rfl⟩ : ∃ F2, F = F2 + 2 := ⟨F - 2, by omega⟩
          have hrec := ih F2 rest (by omega)
          simp [escapeChar, parseStringBody, parseEscapeSeq, unescapeChar, hrec]
        · by_cases h4 : c = '\t'
          · subst h4
            have hc : (escapeChar '\t').length = 2 := rfl
            rw [hc] at hF
            obtain ⟨F2, rfl⟩ : ∃ F2, F = F2 + 2 := ⟨F - 2, by omega⟩
            have hrec := ih F2 rest (by omega)
            simp [escapeChar, parseStringBody, parseEscapeSeq, unescapeChar, hrec]
          · by_cases h5 : c = '\r'
            · subst h5
              have hc : (escapeChar '\r').length = 2 := rfl
              rw [hc] at hF
              obtain ⟨F2, rfl⟩ : ∃ F2, F = F2 + 2 := ⟨F - 2, by omega⟩
              have hrec := ih F2 rest (by omega)
              simp [escapeChar, parseStringBody, parseEscapeSeq, unescapeChar, hrec]
            · by_cases h6 : c = Char.ofNat 8
              · subst h6
                have hc : (escapeChar (Char.ofNat 8)).length = 2 := rfl
                rw [hc] at hF
                obtain ⟨F2, rfl⟩ : ∃ F2, F = F2 + 2 := ⟨F - 2, by omega⟩
                have hrec := ih F2 rest (by omega)
                simp [escapeChar, parseStringBody, parseEscapeSeq, unescapeChar, hrec]
              · by_cases h7 : c = Char.ofNat 12
                · subst h7
                  have hc : (escapeChar (Char.ofNat 12)).length = 2 := rfl
                  rw [hc] at hF
                  obtain ⟨F2, rfl⟩ : ∃ F2, F = F2 + 2 := ⟨F - 2, by omega⟩
                  have hrec := ih F2 rest (by omega)
                  simp [escapeChar, parseStringBody, parseEscapeSeq, unescapeChar, hrec]
                · by_cases h8 : c.toNat < 32
                  · have hc : escapeChar c
                        = ['\\', 'u', '0', '0', hexDigitChar (c.toNat / 16),
                           hexDigitChar (c.toNat % 16)] := by
                      simp [escapeChar, h1, h2, h3, h4, h5, h6, h7, h8]
                    rw [hc] at hF ⊢
                    simp only [List.length_cons, List.length_nil] at hF
                    obtain ⟨F3, rfl⟩ : ∃ F3, F = F3 + 3 := ⟨F - 3, by omega⟩
                    have hrec := ih F3 rest (by omega)
                    have hv1 : hexDigitVal (hexDigitChar (c.toNat / 16))
                        = some (c.toNat / 16) := hexDigitVal_hexDigitChar _ (by omega)
                    have hv2 : hexDigitVal (hexDigitChar (c.toNat % 16))
                        = some (c.toNat % 16) := hexDigitVal_hexDigitChar _ (by omega)
                    have hcode : ((0 * 16 + 0) * 16 + c.toNat / 16) * 16 + c.toNat % 16
                        = c.toNat := by omega
                    simp only [List.cons_append, List.nil_append]
                    rw [parseStringBody]
                    rw [if_neg (by decide), if_pos rfl]
                    rw [parseEscapeSeq]
                    rw [if_pos rfl]
                    rw [parseUEscape]
                    rw [show hexDigitVal '0' = some 0 from rfl, hv1, hv2]
                    dsimp only
                    rw [hcode]
                    rw [if_neg (by omega), hrec]
                    dsimp only
                    rw [if_neg (by omega), Char.ofNat_toNat]
                  · have he : escapeChar c = [c] := by
                      simp [escapeChar, h1, h2, h3, h4, h5, h6, h7, h8]
                    rw [he] at hF ⊢
                    simp only [List.length_cons, List.length_nil] at hF
                    obtain ⟨F1, rfl⟩ : ∃ F1, F = F1 + 1 := ⟨F - 1, by omega⟩
                    have hrec := ih F1 rest (by omega)
                    simp only [List.cons_append, List.nil_append]
                    rw [parseStringBody]
                    rw [if_neg h1, if_neg h2, if_neg (by simpa using h8), hrec]

theorem parseStringBody_escape_call (s rest : Chars) :
    parseStringBody (4 * (escapeStr s ++ ('"' :: rest)).length + 4)
        (escapeStr s ++ ('"' :: rest))
      = some (s, rest) :=
  parseStringBody_escape s _ rest (by simp [List.length_append]; omega)

theorem skipWs_quote (l : Chars) : skipWs ('"' :: l) = '"' :: l := by
  simp [skipWs, isJsonWs]

theorem parseVal_string (f : Nat) (s rest : Chars) :
    parseVal (f + 1) ('"' :: (escapeStr s ++ ('"' :: rest))) = some (JVal.str s, rest) := by
  rw [parseVal, skipWs_quote]
  dsimp only
  rw [if_neg (by decide), if_neg (by decide), if_pos rfl, parseStringBody_escape_call]

theorem skipWs_not_ws (c : Char) (l : Chars) (h : isJsonWs c = false) : skipWs (c :: l) = c :: l := by
  simp [skipWs, h]

theorem renderMembersText_head (p : Chars × Chars) (ps : List (Chars × Chars)) :
    ∃ t, renderMembersText (p :: ps) = '"' :: t := by
  obtain ⟨k, v⟩ := p
  cases ps <;> exact ⟨_, rfl⟩

theorem renderMember_shape (k v : Chars) (tail : Chars) :
    renderMember k v ++ tail
      = '"' :: (escapeStr k ++ ('"' :: (':' :: ('"' :: (escapeStr v ++ ('"' :: tail)))))) := by
  have h : ("\":\"".data) = ['"', ':', '"'] := rfl
  simp [renderMember, h]

theorem parseMembers_render (ps : List (Chars × Chars)) :
    ∀ g rest, ps ≠ [] → ps.length + 1 ≤ g →
    parseMembers g (renderMembersText ps ++ (rbrace :: rest))
      = some (ps.map (fun p => (p.1, JVal.str p.2)), rest) := by
  induction ps with
  | nil => intro g rest h _; exact absurd rfl h
  | cons hd tl ih =>
    obtain ⟨k, v⟩ := hd
    intro g rest _ hg
    cases tl with
    | nil =>
      obtain ⟨g2, rfl⟩ : ∃ g2, g = g2 + 2 :=
        ⟨g - 2, by simp only [List.length_cons] at hg; omega⟩
      rw [show renderMembersText [(k, v)] = renderMember k v from rfl, renderMember_shape]
      rw [parseMembers]
      rw [if_pos rfl, parseStringBody_escape_call]
      dsimp only
      rw [skipWs_not_ws ':' _ (by decide)]
      dsimp only
      rw [if_pos rfl, parseVal_string]
      dsimp only
      rw [skipWs_not_ws rbrace _ (by decide)]
      dsimp only
      rw [if_neg (by decide), if_pos rfl]
      rfl
    | cons p2 tl2 =>
      obtain ⟨g2, rfl⟩ : ∃ g2, g = g2 + 2 :=
        ⟨g - 2, by simp only [List.length_cons] at hg; omega⟩
      rw [show renderMembersText ((k, v) :: p2 :: tl2)
            = renderMember k v ++ ([','] ++ renderMembersText (p2 :: tl2)) from by
          rw [renderMembersText]; simp,
        List.append_assoc, renderMember_shape]
      rw [parseMembers]
      rw [if_pos rfl, parseStringBody_escape_call]
      dsimp only
      rw [skipWs_not_ws ':' _ (by decide)]
      dsimp only
      rw [if_pos rfl]
      rw [show ([','] ++ renderMembersText (p2 :: tl2)) ++ rbrace :: rest
            = ',' :: (renderMembersText (p2 :: tl2) ++ (rbrace :: rest)) from by simp]
      rw [parseVal_string]
      dsimp only
      rw [skipWs_not_ws ',' _ (by decide)]
      dsimp only
      rw [if_pos rfl]
      obtain ⟨t, ht⟩ := renderMembersText_head p2 tl2
      rw [show renderMembersText (p2 :: tl2) ++ (rbrace :: rest) = '"' :: (t ++ (rbrace :: rest)) from by
          rw [ht]; simp]
      rw [skipWs_quote]
      rw [show ('"' : Char) :: (t ++ (rbrace :: rest)) = renderMembersText (p2 :: tl2) ++ (rbrace :: rest) from by
          rw [ht]; simp]
      rw [ih (g2 + 1) rest (by simp) (by simp only [List.length_cons] at hg ⊢; omega)]
      rfl

theorem parseVal_renderStrObj (f : Nat) (ps : List (Chars × Chars)) (rest : Chars)
    (hf : ps.length + 2 ≤ f) :
    parseVal f (renderStrObj ps ++ rest)
      = some (JVal.obj (ps.map (fun p => (p.1, JVal.str p.2))), rest) := by
  obtain ⟨f1, rfl⟩ : ∃ f1, f = f1 + 1 := ⟨f - 1, by omega⟩
  rw [show renderStrObj ps ++ rest = lbrace :: (renderMembersText ps ++ (rbrace :: rest)) from by
      simp [renderStrObj]]
  rw [parseVal]
  rw [skipWs_not_ws lbrace _ (by decide)]
  dsimp only
  rw [if_pos rfl]
  cases ps with
  | nil =>
    rw [show renderMembersText ([] : List (Chars × Chars)) ++ (rbrace :: rest) = rbrace :: rest from by
        simp [renderMembersText]]
    rw [skipWs_not_ws rbrace _ (by decide)]
    dsimp only
    rw [if_pos rfl]
    rfl
  | cons p tl =>
    obtain ⟨t, ht⟩ := renderMembersText_head p tl
    rw [show renderMembersText (p :: tl) ++ (rbrace :: rest) = '"' :: (t ++ (rbrace :: rest)) from by
        rw [ht]; simp]
    rw [skipWs_quote]
    dsimp only
    rw [if_neg (by decide)]
    rw [show ('"' : Char) :: (t ++ (rbrace :: rest)) = renderMembersText (p :: tl) ++ (rbrace :: rest) from by
        rw [ht]; simp]
    rw [parseMembers_render (p :: tl) f1 rest (by simp)
        (by simp only [List.length_cons] at hf ⊢; omega)]

theorem parseVal_renderRD (f : Nat) (a : Chars) (ps : List (Chars × Chars))
    (hf : ps.length + 5 ≤ f) :
    parseVal f (renderRD a ps) = some (rdJVal a ps, []) := by
  obtain ⟨f1, rfl⟩ : ∃ f1, f = f1 + 4 := ⟨f - 4, by omega⟩
  have hq : ("\":".data) = ['"', ':'] := rfl
  rw [show renderRD a ps
        = lbrace :: (renderMember ("agent".data) a
            ++ (',' :: ('"' :: (escapeStr ("parameters".data)
                ++ ('"' :: (':' :: (renderStrObj ps ++ [rbrace]))))))) from by
      simp [renderRD, hq]]
  rw [renderMember_shape]
  rw [parseVal]
  rw [skipWs_not_ws lbrace _ (by decide)]
  dsimp only
  rw [if_pos rfl]
  rw [skipWs_quote]
  dsimp only
  rw [if_neg (by decide)]
  rw [parseMembers]
  rw [if_pos rfl, parseStringBody_escape_call]
  dsimp only
  rw [skipWs_not_ws ':' _ (by decide)]
  dsimp only
  rw [if_pos rfl, parseVal_string]
  dsimp only
  rw [skipWs_not_ws ',' _ (by decide)]
  dsimp only
  rw [if_pos rfl]
  rw [skipWs_quote]
  rw [parseMembers]
  rw [if_pos rfl, parseStringBody_escape_call]
  dsimp only
  rw [skipWs_not_ws ':' _ (by decide)]
  dsimp only
  rw [if_pos rfl]
  rw [parseVal_renderStrObj (f1 + 1) ps [rbrace] (by omega)]
  dsimp only
  rw [skipWs_not_ws rbrace _ (by decide)]
  dsimp only
  rw [if_neg (by decide), if_pos rfl]
  rfl

theorem renderMembersText_length (ps : List (Chars × Chars)) :
    ps.length ≤ (renderMembersText ps).length := by
  induction ps with
  | nil => simp [renderMembersText]
  | cons p tl ih =>
    obtain ⟨k, v⟩ := p
    cases tl with
    | nil => simp [renderMembersText, renderMember]
    | cons q tl2 =>
      rw [renderMembersText]
      simp only [List.length_append, List.length_cons, renderMember]
      simp only [List.length_cons] at ih ⊢
      omega

theorem json_loads_renderRD (a : Chars) (ps : List (Chars × Chars)) :
    json_loads (renderRD a ps) = some (rdJVal a ps) := by
  have h1 := renderMembersText_length ps
  have hlen : ps.length + 5 ≤ (renderRD a ps).length + 1 := by
    simp only [renderRD, renderStrObj, renderMember, List.length_append, List.length_cons,
      List.length_nil]
    omega
  rw [json_loads, parseVal_renderRD ((renderRD a ps).length + 1) a ps hlen]
  rfl

theorem routerClean_renderRD (a : Chars) (ps : List (Chars × Chars))
    (hfence : containsSub fenceMarker (renderRD a ps) = false) :
    routerClean (renderRD a ps) = renderRD a ps := by
  have hsh : renderRD a ps
      = lbrace :: ((renderMember ("agent".data) a ++ [','] ++ ['"']
          ++ escapeStr ("parameters".data) ++ ("\":".data) ++ renderStrObj ps) ++ [rbrace]) := by
    simp [renderRD, List.append_assoc]
  have hjson : containsSub fenceJsonMarker (renderRD a ps) = false := by
    cases hc : containsSub fenceJsonMarker (renderRD a ps) with
    | false => rfl
    | true =>
      have hm := containsSub_append_pat_mono fenceMarker (['j', 's', 'o', 'n']) (renderRD a ps)
        (by rw [show fenceMarker ++ (['j', 's', 'o', 'n']) = fenceJsonMarker from rfl]; exact hc)
      simp [hm] at hfence
  have hstrip : pyStrip (renderRD a ps) = renderRD a ps := by
    rw [hsh]; exact pyStrip_braced _
  rw [routerClean, hstrip, pyReplaceDel_no_occur _ _ hjson, pyReplaceDel_no_occur _ _ hfence]

/-!  ## Claim theorems  -/

/-- C4 (amended): for every well-formed RouteDecision JSON text — any
agent label from the fixed set and any parameter mapping of string
keys to string values — the Router's parsing step (strip whitespace,
remove the code-fence marker substrings, parse as JSON) yields the
structure the text denotes, PROVIDED the text contains no occurrence
of the three-backtick fence marker (in particular, no parameter key or
value contains three consecutive backticks). -/
theorem c4_wellformed_parse_roundtrip (a : Chars) (ps : List (Chars × Chars))
    (hlabel : a ∈ routerLabels) (hkeys : (ps.map Prod.fst).Nodup)
    (hfence : containsSub fenceMarker (renderRD a ps) = false) :
    routerParseStep (renderRD a ps) = some (rdJVal a ps) := by
  rw [routerParseStep, routerClean_renderRD a ps hfence, json_loads_renderRD]

/-- C4 counterexample: the well-formed RouteDecision text for the
parameter mapping `{"query": "a```b"}` (whose value holds a fence
marker) denotes one structure, but the Router's parsing step yields a
different one — the `replace` calls delete the backticks from inside
the JSON string literal. -/
theorem c4_counterexample :
    json_loads (renderRD ("WeatherAgent".data) [(("query".data), ("a```b".data))])
      = some (rdJVal ("WeatherAgent".data) [(("query".data), ("a```b".data))])
  ∧ routerParseStep (renderRD ("WeatherAgent".data) [(("query".data), ("a```b".data))])
      ≠ some (rdJVal ("WeatherAgent".data) [(("query".data), ("a```b".data))]) := by
  refine ⟨rfl, ?_⟩
  intro h
  rw [show routerParseStep (renderRD ("WeatherAgent".data) [(("query".data), ("a```b".data))])
        = some (rdJVal ("WeatherAgent".data) [(("query".data), ("ab".data))]) from rfl] at h
  have h2 := Option.some.inj h
  simp only [rdJVal, JVal.obj.injEq, List.cons.injEq, Prod.mk.injEq, JVal.str.injEq,
    and_true, true_and, List.map_cons, List.map_nil] at h2
  exact absurd h2 (by decide)

/-- Witness for C4 (amended) at a concrete label and mapping. -/
theorem c4_wellformed_parse_roundtrip_witness :
    ("WeatherAgent".data) ∈ routerLabels
  ∧ ([(("city".data), ("Pune".data))].map Prod.fst).Nodup
  ∧ containsSub fenceMarker (renderRD ("WeatherAgent".data) [(("city".data), ("Pune".data))]) = false
  ∧ routerParseStep (renderRD ("WeatherAgent".data) [(("city".data), ("Pune".data))])
      = some (rdJVal ("WeatherAgent".data) [(("city".data), ("Pune".data))]) :=
  ⟨by decide, by decide, by decide,
   c4_wellformed_parse_roundtrip ("WeatherAgent".data) [(("city".data), ("Pune".data))]
     (by decide) (by decide) (by decide)⟩

/-- C1 counterexample: the reply text `[]` is valid JSON but not a
mapping with the keys `agent` and `parameters`; the router returns the
parsed list itself, not the Unclear decision the claim requires. -/
theorem c1_counterexample :
    routerParseStep (("[]".data)) = some (JVal.arr [])
  ∧ route_query_to_agent (some (("[]".data))) = JVal.arr []
  ∧ route_query_to_agent (some (("[]".data))) ≠ unclearDecision := by
  refine ⟨rfl, rfl, ?_⟩
  intro h
  rw [show route_query_to_agent (some (("[]".data))) = JVal.arr [] from rfl] at h
  simp [unclearDecision] at h

/-- C1 (amended): when the reply text is malformed JSON (its cleaned
form fails to parse) the router returns exactly the Unclear decision,
and likewise when the reply is not a string at all; but a reply that
parses as valid JSON is returned as parsed, even when it is not a
mapping with both keys. -/
theorem c1_parse_failure_returns_unclear (t : Chars)
    (h : json_loads (routerClean t) = none) :
    route_query_to_agent (some t) = unclearDecision
      ∧ route_query_to_agent none = unclearDecision := by
  constructor
  · simp [route_query_to_agent, routerParseStep, h]
  · rfl

/-- Witness for C1 (amended) at the spec's own fallback scenario text
`Sure! {"agent": "WeatherAgent"}`. -/
theorem c1_parse_failure_returns_unclear_witness :
    json_loads (routerClean (("Sure! \x7b\"agent\": \"WeatherAgent\"\x7d".data))) = none
  ∧ route_query_to_agent (some (("Sure! \x7b\"agent\": \"WeatherAgent\"\x7d".data)))
      = unclearDecision :=
  ⟨rfl, (c1_parse_failure_returns_unclear (("Sure! \x7b\"agent\": \"WeatherAgent\"\x7d".data)) rfl).1⟩

/-- C2: a Bridge `request` to an unregistered name returns the literal
not-found string (which contains the target name); a `request` to a
registered agent without a `handle_request` method returns the literal
cannot-handle string (which also contains the target name).  Both are
plain returns — the model is a total function, so no exception is
raised. -/
theorem c2_bridge_request_errors (b : AgentBridge) (target task : Chars)
    (data : List (Chars × Chars)) :
    (b.agents target = none →
      AgentBridge.request b target task data
          = ("Error: Agent '".data) ++ target ++ ("' not found.".data)
        ∧ containsSub target (AgentBridge.request b target task data) = true)
  ∧ (∀ ag, b.agents target = some ag → ag.handle_request = none →
      AgentBridge.request b target task data
          = ("Error: Agent '".data) ++ target ++ ("' cannot handle requests.".data)
        ∧ containsSub target (AgentBridge.request b target task data) = true) := by
  constructor
  · intro h
    have he : AgentBridge.request b target task data
        = ("Error: Agent '".data) ++ target ++ ("' not found.".data) := by
      simp [AgentBridge.request, h]
    refine ⟨he, ?_⟩
    rw [he, List.append_assoc]
    exact containsSub_sandwich target (("Error: Agent '".data)) (("' not found.".data))
  · intro ag hag hnone
    have he : AgentBridge.request b target task data
        = ("Error: Agent '".data) ++ target ++ ("' cannot handle requests.".data) := by
      simp [AgentBridge.request, hag, hnone]
    refine ⟨he, ?_⟩
    rw [he, List.append_assoc]
    exact containsSub_sandwich target (("Error: Agent '".data)) (("' cannot handle requests.".data))

/-- Witness for C2: a bridge with nothing registered, and a bridge
whose registered `SchemeAgent` entry has no task handler. -/
theorem c2_bridge_request_errors_witness :
    AgentBridge.request ⟨fun _ => none⟩ (("WeatherAgent".data)) (("get_simple_forecast".data)) []
        = ("Error: Agent '".data) ++ (("WeatherAgent".data)) ++ ("' not found.".data)
  ∧ AgentBridge.request ⟨fun _ => some ⟨none⟩⟩ (("SchemeAgent".data)) (("t".data)) []
        = ("Error: Agent '".data) ++ (("SchemeAgent".data)) ++ ("' cannot handle requests.".data) :=
  ⟨((c2_bridge_request_errors ⟨fun _ => none⟩ (("WeatherAgent".data)) (("get_simple_forecast".data)) []).1 rfl).1,
   ((c2_bridge_request_errors ⟨fun _ => some ⟨none⟩⟩ (("SchemeAgent".data)) (("t".data)) []).2 ⟨none⟩ rfl rfl).1⟩

/-- C3: every agent perform-style operation, given an empty or absent
semantically-required parameter, returns its fixed English guidance
string and makes no outbound call at all (empty call trace: no
completion call, no data-client call, no Bridge call), for every
language value and every behaviour of the clients. -/
theorem c3_empty_param_guidance_no_calls
    (mfetch : Chars → Chars → MarketResp) (wfetch : Chars → WeatherResp)
    (breq : Chars → Chars → List (Chars × Chars) → Chars) (gemini : Chars → Chars)
    (lang : Chars) (commodity market query city topic soilq : Option Chars) :
    ((pyFalsy commodity || pyFalsy market) = true →
      MarketAgent.get_market_price mfetch breq gemini commodity market lang
        = (("To get market prices, please tell me the crop and the market name (mandi).".data), []))
  ∧ (pyFalsy query = true →
      SchemeAgent.find_schemes gemini query lang
        = (("Please tell me what kind of scheme or subsidy you are looking for.".data), []))
  ∧ (pyFalsy city = true →
      WeatherAgent.get_weather wfetch gemini city lang
        = (some ("Please tell me the city or town for the weather forecast.".data), []))
  ∧ (pyFalsy topic = true →
      OrganicAgent.get_tips gemini topic lang
        = (("Please tell me what organic farming topic you are interested in.".data), []))
  ∧ (pyFalsy soilq = true →
      SoilAgent.analyze_soil gemini soilq lang
        = (("Please describe your soil. For example, 'My soil is red and does not hold water well'.".data), [])) := by
  refine ⟨?_, ?_, ?_, ?_, ?_⟩
  · intro h; simp [MarketAgent.get_market_price, h]
  · intro h; simp [SchemeAgent.find_schemes, h]
  · intro h; simp [WeatherAgent.get_weather, h]
  · intro h; simp [OrganicAgent.get_tips, h]
  · intro h; simp [SoilAgent.analyze_soil, h]

/-- Witness for C3: all five operations at absent parameters, with
concrete clients. -/
theorem c3_empty_param_guidance_no_calls_witness :
    MarketAgent.get_market_price (fun _ _ => MarketResp.error []) (fun _ _ _ => []) (fun _ => [])
        none none (("English".data))
      = (("To get market prices, please tell me the crop and the market name (mandi).".data), [])
  ∧ SchemeAgent.find_schemes (fun _ => []) none (("English".data))
      = (("Please tell me what kind of scheme or subsidy you are looking for.".data), [])
  ∧ WeatherAgent.get_weather (fun _ => WeatherResp.error []) (fun _ => []) (some []) (("English".data))
      = (some ("Please tell me the city or town for the weather forecast.".data), [])
  ∧ OrganicAgent.get_tips (fun _ => []) none (("English".data))
      = (("Please tell me what organic farming topic you are interested in.".data), [])
  ∧ SoilAgent.analyze_soil (fun _ => []) none (("English".data))
      = (("Please describe your soil. For example, 'My soil is red and does not hold water well'.".data), []) := by
  have h := c3_empty_param_guidance_no_calls (fun _ _ => MarketResp.error []) (fun _ => WeatherResp.error [])
    (fun _ _ _ => []) (fun _ => []) (("English".data)) none none none (some []) none none
  exact ⟨h.1 (by decide), h.2.1 (by decide), h.2.2.1 (by decide), h.2.2.2.1 (by decide),
    h.2.2.2.2 (by decide)⟩

/-- C5: the weather bridge handler, asked for a simple forecast for
Pune while the data client reports description `light rain` and
temperature `24`, returns exactly the specified sentence. -/
theorem c5_weather_bridge_handler_scenario (fetch : Chars → WeatherResp)
    (nm : Chars) (hum : Int)
    (h : fetch (("Pune".data)) = WeatherResp.ok nm [("light rain".data)] 24 hum) :
    (WeatherAgent.handle_request fetch (("get_simple_forecast".data))
        [(("city".data), ("Pune".data))]).1
      = some ("Forecast for Pune: Light Rain with temperatures around 24°C.".data) := by
  have hc : WeatherAgent.handle_request fetch (("get_simple_forecast".data))
        [(("city".data), ("Pune".data))]
      = (match fetch (("Pune".data)) with
         | WeatherResp.error _ =>
             (some ("Weather data unavailable.".data), [CallEvent.weatherApi (("Pune".data))])
         | WeatherResp.ok _ descs temp _ =>
           match descs with
           | [] => (none, [CallEvent.weatherApi (("Pune".data))])
           | desc :: _ =>
             (some (forecastLine (("Pune".data)) desc temp),
              [CallEvent.weatherApi (("Pune".data))])) := rfl
  rw [hc, h]
  rfl

/-- Witness for C5 with a concrete mocked data client. -/
theorem c5_weather_bridge_handler_scenario_witness :
    (WeatherAgent.handle_request (fun _ => WeatherResp.ok [] [("light rain".data)] 24 60)
        (("get_simple_forecast".data)) [(("city".data), ("Pune".data))]).1
      = some ("Forecast for Pune: Light Rain with temperatures around 24°C.".data) :=
  c5_weather_bridge_handler_scenario (fun _ => WeatherResp.ok [] [("light rain".data)] 24 60)
    [] 60 rfl

/-- The record list returned by the mocked market data client in the
spec's Market scenario. -/
def marketScenarioRecords : List (List (Chars × Chars)) :=
  [[(("min_price".data), ("800".data)), (("max_price".data), ("1200".data)),
    (("modal_price".data), ("1000".data))]]

/-- The forecast string returned by the mocked Bridge in the spec's
Market scenario. -/
def agraForecast : Chars :=
  ("Forecast for Agra: Clear Sky with temperatures around 28°C.".data)

/-- C6: in the Market scenario (commodity Potato, market Agra, mocked
data client and Bridge), the prompt handed to the completion client
contains both the literal modal price value `1000` and the literal
forecast string. -/
theorem c6_market_prompt_contains (fetch : Chars → Chars → MarketResp)
    (breq : Chars → Chars → List (Chars × Chars) → Chars) (gemini : Chars → Chars)
    (hf : fetch (("Potato".data)) (("Agra".data)) = MarketResp.ok marketScenarioRecords)
    (hb : breq (("WeatherAgent".data)) (("get_simple_forecast".data))
        [(("city".data), ("Agra".data))] = agraForecast) :
    (MarketAgent.get_market_price fetch breq gemini
        (some ("Potato".data)) (some ("Agra".data)) (("English".data))).2
      = [CallEvent.marketApi (("Potato".data)) (("Agra".data)),
         CallEvent.bridgeReq (("WeatherAgent".data)) (("get_simple_forecast".data)),
         CallEvent.gemini (marketPrompt (("Potato".data)) (("Agra".data)) agraForecast
           marketScenarioRecords (("English".data)))]
  ∧ containsSub (("1000".data))
      (marketPrompt (("Potato".data)) (("Agra".data)) agraForecast
        marketScenarioRecords (("English".data))) = true
  ∧ containsSub agraForecast
      (marketPrompt (("Potato".data)) (("Agra".data)) agraForecast
        marketScenarioRecords (("English".data))) = true := by
  have hc : MarketAgent.get_market_price fetch breq gemini
        (some ("Potato".data)) (some ("Agra".data)) (("English".data))
      = (match fetch (("Potato".data)) (("Agra".data)) with
         | MarketResp.error e =>
             (("Sorry, I could not fetch market data. Reason: ".data) ++ e,
              [CallEvent.marketApi (("Potato".data)) (("Agra".data))])
         | MarketResp.ok records =>
           (gemini (marketPrompt (("Potato".data)) (("Agra".data))
              (breq (("WeatherAgent".data)) (("get_simple_forecast".data))
                [(("city".data), ("Agra".data))]) records (("English".data))),
            [CallEvent.marketApi (("Potato".data)) (("Agra".data)),
             CallEvent.bridgeReq (("WeatherAgent".data)) (("get_simple_forecast".data)),
             CallEvent.gemini (marketPrompt (("Potato".data)) (("Agra".data))
               (breq (("WeatherAgent".data)) (("get_simple_forecast".data))
                 [(("city".data), ("Agra".data))]) records (("English".data)))])) := rfl
  refine ⟨?_, by rfl, by rfl⟩
  rw [hc, hf, hb]

/-- C7 counterexample: with non-empty commodity and market but a data
client that reports an error, `get_market_price` returns before the
Bridge call — its trace holds the data-client call only, so the
claim's "regardless of what the market data client returns" fails. -/
theorem c7_counterexample :
    (MarketAgent.get_market_price (fun _ _ => MarketResp.error ("x".data))
        (fun _ _ _ => []) (fun _ => []) (some ("Potato".data)) (some ("Agra".data))
        (("English".data))).2
      = [CallEvent.marketApi (("Potato".data)) (("Agra".data))]
  ∧ ¬ (CallEvent.bridgeReq (("WeatherAgent".data)) (("get_simple_forecast".data))
        ∈ [CallEvent.marketApi (("Potato".data)) (("Agra".data))]) := by
  refine ⟨rfl, ?_⟩
  intro h
  simp at h

/-- C7 (amended): for every market price query with non-empty
commodity and market WHOSE DATA-CLIENT RESPONSE CARRIES NO ERROR
MARKER, the Market agent issues a Bridge request to `WeatherAgent`
with task `get_simple_forecast`, regardless of the records returned
and of whether weather is relevant. -/
theorem c7_always_bridges_weather (fetch : Chars → Chars → MarketResp)
    (breq : Chars → Chars → List (Chars × Chars) → Chars) (gemini : Chars → Chars)
    (commodity market : Option Chars) (lang : Chars)
    (records : List (List (Chars × Chars)))
    (hc : pyFalsy commodity = false) (hm : pyFalsy market = false)
    (hf : fetch (commodity.getD []) (market.getD []) = MarketResp.ok records) :
    CallEvent.bridgeReq (("WeatherAgent".data)) (("get_simple_forecast".data))
      ∈ (MarketAgent.get_market_price fetch breq gemini commodity market lang).2 := by
  simp [MarketAgent.get_market_price, hc, hm, hf]

/-- Witness for C7 (amended) with concrete clients and parameters. -/
theorem c7_always_bridges_weather_witness :
    CallEvent.bridgeReq (("WeatherAgent".data)) (("get_simple_forecast".data))
      ∈ (MarketAgent.get_market_price (fun _ _ => MarketResp.ok marketScenarioRecords)
          (fun _ _ _ => []) (fun _ => []) (some ("Potato".data)) (some ("Agra".data))
          (("English".data))).2 :=
  c7_always_bridges_weather (fun _ _ => MarketResp.ok marketScenarioRecords)
    (fun _ _ _ => []) (fun _ => []) (some ("Potato".data)) (some ("Agra".data))
    (("English".data)) marketScenarioRecords rfl rfl rfl

/-- Number of weather-data-client calls in a trace. -/
def weatherCallCount : List CallEvent → Nat
  | [] => 0
  | CallEvent.weatherApi _ :: t => weatherCallCount t + 1
  | _ :: t => weatherCallCount t

/-- Number of completion-client calls in a trace. -/
def geminiCallCount : List CallEvent → Nat
  | [] => 0
  | CallEvent.gemini _ :: t => geminiCallCount t + 1
  | _ :: t => geminiCallCount t

/-- C8: for every agent label string outside the dispatch table's key
set (and different from `General`), the text path of `ask` falls
through to the generic fallback response with no agent method invoked;
the lookup is a total `in`-test, so no key-lookup fault is possible. -/
theorem c8_unknown_label_fallback (impl : MethodCall → Chars) (lang : Chars)
    (name : Chars) (params : JVal)
    (h1 : ¬ name ∈ agentsKeys) (h2 : name ≠ ("General".data)) :
    askText impl (JVal.obj [(("agent".data), JVal.str name), (("parameters".data), params)]) lang
      = some (JVal.str fallbackResponse, []) := by
  have hstep : askText impl
        (JVal.obj [(("agent".data), JVal.str name), (("parameters".data), params)]) lang
      = (if name = ("General".data) then
           match params with
           | JVal.obj pfs =>
               some ((alookup pfs ("response".data)).getD (JVal.str ("You're welcome!".data)), [])
           | _ => none
         else if name ∈ agentsKeys then
           some (JVal.str (askDispatch impl name params lang).1, (askDispatch impl name params lang).2)
         else some (JVal.str fallbackResponse, [])) := rfl
  rw [hstep, if_neg h2, if_neg h1]

/-- Witness for C8 at the unknown label `FooAgent`. -/
theorem c8_unknown_label_fallback_witness :
    ¬ (("FooAgent".data)) ∈ agentsKeys
  ∧ (("FooAgent".data)) ≠ ("General".data)
  ∧ askText (fun _ => []) (JVal.obj [(("agent".data), JVal.str ("FooAgent".data)),
        (("parameters".data), JVal.obj [])]) (("English".data))
      = some (JVal.str fallbackResponse, []) :=
  ⟨by decide, by decide,
   c8_unknown_label_fallback (fun _ => []) (("English".data)) (("FooAgent".data))
     (JVal.obj []) (by decide) (by decide)⟩

/-- C9: the weather bridge handler returns the literal
`No city provided.` when asked for a simple forecast without a
non-empty city, returns the literal `Unknown task.` for any other
task, and in all cases makes at most one data-client call and no
completion-client call. -/
theorem c9_handler_dispatch_contract (fetch : Chars → WeatherResp) (task : Chars)
    (data : List (Chars × Chars)) :
    (task = ("get_simple_forecast".data) → pyFalsy (slookup data ("city".data)) = true →
        WeatherAgent.handle_request fetch task data = (some ("No city provided.".data), []))
  ∧ (task ≠ ("get_simple_forecast".data) →
        WeatherAgent.handle_request fetch task data = (some ("Unknown task.".data), []))
  ∧ weatherCallCount (WeatherAgent.handle_request fetch task data).2 ≤ 1
  ∧ geminiCallCount (WeatherAgent.handle_request fetch task data).2 = 0 := by
  have htr : (WeatherAgent.handle_request fetch task data).2 = []
      ∨ ∃ c, (WeatherAgent.handle_request fetch task data).2 = [CallEvent.weatherApi c] := by
    by_cases ht : task = ("get_simple_forecast".data)
    · by_cases hcity : pyFalsy (slookup data ("city".data)) = true
      · left
        simp [WeatherAgent.handle_request, ht, hcity]
      · simp only [WeatherAgent.handle_request, ht, if_pos rfl]
        rw [if_neg hcity]
        cases hf : fetch ((slookup data ("city".data)).getD []) with
        | error m => right; exact ⟨_, rfl⟩
        | ok nm descs temp hum =>
          cases descs with
          | nil => right; exact ⟨_, rfl⟩
          | cons d tl => right; exact ⟨_, rfl⟩
    · left
      simp [WeatherAgent.handle_request, ht]
  refine ⟨?_, ?_, ?_, ?_⟩
  · intro ht hcity
    simp [WeatherAgent.handle_request, ht, hcity]
  · intro ht
    simp [WeatherAgent.handle_request, ht]
  · rcases htr with h | ⟨c, h⟩ <;> rw [h] <;> simp [weatherCallCount]
  · rcases htr with h | ⟨c, h⟩ <;> rw [h] <;> simp [geminiCallCount]

/-- Witness for C9: missing city and unknown task, concrete client. -/
theorem c9_handler_dispatch_contract_witness :
    WeatherAgent.handle_request (fun _ => WeatherResp.error []) (("get_simple_forecast".data)) []
        = (some ("No city provided.".data), [])
  ∧ WeatherAgent.handle_request (fun _ => WeatherResp.error []) (("ping".data)) []
        = (some ("Unknown task.".data), []) :=
  ⟨(c9_handler_dispatch_contract (fun _ => WeatherResp.error [])
      (("get_simple_forecast".data)) []).1 rfl rfl,
   (c9_handler_dispatch_contract (fun _ => WeatherResp.error [])
      (("ping".data)) []).2.1 (by decide)⟩

/-- C10: a route decision labelled `CropAgent` — although `CropAgent`
is a key of the dispatch table — matches no branch of the inner
dispatch chain, so the text path of `ask` invokes no agent method and
returns the generic fallback response. -/
theorem c10_cropagent_text_fallback (impl : MethodCall → Chars) (lang : Chars) (params : JVal) :
    askText impl (JVal.obj [(("agent".data), JVal.str ("CropAgent".data)),
        (("parameters".data), params)]) lang
      = some (JVal.str fallbackResponse, []) := rfl

/-- Witness for C6 with concrete mocked clients. -/
theorem c6_market_prompt_contains_witness :
    (MarketAgent.get_market_price (fun _ _ => MarketResp.ok marketScenarioRecords)
        (fun _ _ _ => agraForecast) (fun _ => []) (some ("Potato".data)) (some ("Agra".data))
        (("English".data))).2
      = [CallEvent.marketApi (("Potato".data)) (("Agra".data)),
         CallEvent.bridgeReq (("WeatherAgent".data)) (("get_simple_forecast".data)),
         CallEvent.gemini (marketPrompt (("Potato".data)) (("Agra".data)) agraForecast
           marketScenarioRecords (("English".data)))]
  ∧ containsSub (("1000".data))
      (marketPrompt (("Potato".data)) (("Agra".data)) agraForecast
        marketScenarioRecords (("English".data))) = true
  ∧ containsSub agraForecast
      (marketPrompt (("Potato".data)) (("Agra".data)) agraForecast
        marketScenarioRecords (("English".data))) = true :=
  c6_market_prompt_contains (fun _ _ => MarketResp.ok marketScenarioRecords)
    (fun _ _ _ => agraForecast) (fun _ => []) rfl rfl
